import Mathlib

/-!
Verification of the composable-rules rule-evaluation engine
(the library module defining the evaluator `runHelp` with its helpers
`runAllMatchingRules`, `runFirstMatchingRule`, `runChainOfRules`, the
matcher combinators `not` / `one` / `all` / `always`, the rule builders,
and the entry points `run` / `detailedRun`).

A rule is a plain JavaScript object carrying an optional `type` tag plus the
payload fields the evaluator reads (`matcher`, `action`, `mapper`,
`transformer`, `childRule`, `rule`, `rules`); a field the caller did not put
on the object is modelled as `Option.none` (JavaScript `undefined`).
User-supplied functions (matchers, actions, mappers, transformers) may
throw, which we model with `Except E`.  Exceptions raised by the JavaScript
runtime itself (calling an `undefined` field as a function, recursing into
an `undefined` rule, destructuring `null`) are a second kind of failure;
`JsError` separates the two.
-/

namespace ComposableRules

/-- A thrown JavaScript exception: either an exception raised by a
user-supplied function (`user`), or a `TypeError` raised by the runtime
itself, e.g. when a missing field is called as a function or `null` is
destructured. -/
inductive JsError (E : Type) where
  | user (err : E)
  | typeErr
deriving DecidableEq

/-- The state threaded through evaluation, `{ foundMatch, value }` in the
source (`RuleResult` in the TypeScript types). -/
structure RuleResult (V : Type) where
  foundMatch : Bool
  value : V
deriving DecidableEq

/-- A matcher `(facts, value) => boolean`; it may throw. -/
def Matcher (F V E : Type) : Type := F → V → Except E Bool

/-- A rule object as consumed by `runHelp`: the `type` tag together with the
payload fields the evaluator reads.  Fields `matcher`/`action` are read by
the default (leaf) branch, `matcher` also by the `"if"` branch,
`mapper`/`childRule` by the `"injected"` branch, `transformer`/`rule` by the
`"transformed"` branch (`rule` also by `"if"`), and `rules` by the
`"all"`/`"first"`/`"chain"` branches. -/
inductive Rule (F V E : Type) where
  | mk
      (type : Option String)
      (matcher : Option (F → V → Except E Bool))
      (action : Option (F → V → Except E V))
      (mapper : Option (F → Except E F))
      (transformer : Option (V → Except E V))
      (childRule : Option (Rule F V E))
      (rule : Option (Rule F V E))
      (rules : Option (List (Rule F V E)))

/-- Run a user-supplied function: an exception it throws surfaces as
`JsError.user`. -/
def userCall {E A : Type} : Except E A → Except (JsError E) A
  | .ok a => .ok a
  | .error e => .error (.user e)

variable {F V E : Type}

mutual

/-- The recursive evaluator `runHelp(rule, facts, state)`.  It dispatches on
`rule.type` via `switch`; the six case labels are `"injected"`,
`"transformed"`, `"if"`, `"all"`, `"first"`, `"chain"`, and every other tag
(including an absent one and `"plain"`) falls through to the `default`
branch, which runs `rule.matcher` and, on a match, `rule.action`.  Calling a
function field that is absent, or recursing into an absent child rule,
raises a `TypeError` (`JsError.typeErr`). -/
def runHelp : Rule F V E → F → RuleResult V → Except (JsError E) (RuleResult V)
  | .mk type matcher action mapper transformer childRule rule rules, facts, state =>
    match type with
    | some "injected" =>
      match mapper with
      | none => .error .typeErr
      | some mp =>
        match mp facts with
        | .error e => .error (.user e)
        | .ok facts2 =>
          match childRule with
          | none => .error .typeErr
          | some child => runHelp child facts2 state
    | some "transformed" =>
      match rule with
      | none => .error .typeErr
      | some child =>
        match runHelp child facts state with
        | .error e => .error e
        | .ok res =>
          if res.foundMatch then
            match transformer with
            | none => .error .typeErr
            | some tr =>
              match tr res.value with
              | .error e => .error (.user e)
              | .ok v => .ok ⟨res.foundMatch, v⟩
          else .ok ⟨res.foundMatch, res.value⟩
    | some "if" =>
      match matcher with
      | none => .error .typeErr
      | some m =>
        match m facts state.value with
        | .error e => .error (.user e)
        | .ok true =>
          match rule with
          | none => .error .typeErr
          | some subRule => runHelp subRule facts state
        | .ok false => .ok ⟨false, state.value⟩
    | some "all" =>
      match rules with
      | none => .error .typeErr
      | some rs => runAllMatchingRules rs facts state
    | some "first" =>
      match rules with
      | none => .error .typeErr
      | some rs => runFirstMatchingRule rs facts state
    | some "chain" =>
      match rules with
      | none => .error .typeErr
      | some rs => runChainOfRules rs facts state
    | _ =>
      match matcher with
      | none => .error .typeErr
      | some m =>
        match m facts state.value with
        | .error e => .error (.user e)
        | .ok true =>
          match action with
          | none => .error .typeErr
          | some a =>
            match a facts state.value with
            | .error e => .error (.user e)
            | .ok v => .ok ⟨true, v⟩
        | .ok false => .ok ⟨false, state.value⟩

/-- The helper `runAllMatchingRules(rules, facts, state)`:
`rules.reduce(reducer, state)` where the reducer evaluates the current rule
against the accumulated state and yields `{ foundMatch:
currentState.foundMatch || newState.foundMatch, value: newState.value }`. -/
def runAllMatchingRules :
    List (Rule F V E) → F → RuleResult V → Except (JsError E) (RuleResult V)
  | [], _, state => .ok state
  | currentRule :: rest, facts, currentState =>
    match runHelp currentRule facts currentState with
    | .error e => .error e
    | .ok newState =>
      runAllMatchingRules rest facts
        ⟨currentState.foundMatch || newState.foundMatch, newState.value⟩

/-- The helper `runFirstMatchingRule(rules, facts, state)`: evaluates the
head rule against `state`; if it matched, its result is returned, otherwise
the remaining rules are tried against the same `state`; an empty list
returns `state`. -/
def runFirstMatchingRule :
    List (Rule F V E) → F → RuleResult V → Except (JsError E) (RuleResult V)
  | [], _, state => .ok state
  | nextRule :: remainingRules, facts, state =>
    match runHelp nextRule facts state with
    | .error e => .error e
    | .ok res =>
      if res.foundMatch then .ok ⟨res.foundMatch, res.value⟩
      else runFirstMatchingRule remainingRules facts state

/-- The helper `runChainOfRules(rules, facts, state)`: evaluates the head
rule against `state`; if it matched, the remaining rules are run against
its result, otherwise the incoming `state` is returned; an empty list
returns `state`. -/
def runChainOfRules :
    List (Rule F V E) → F → RuleResult V → Except (JsError E) (RuleResult V)
  | [], _, state => .ok state
  | nextRule :: remainingRules, facts, state =>
    match runHelp nextRule facts state with
    | .error e => .error e
    | .ok res =>
      if res.foundMatch then
        runChainOfRules remainingRules facts ⟨res.foundMatch, res.value⟩
      else .ok state

end

/-- The builder `injectFacts(mapper, rule)`, producing
`{ type: "injected", mapper, childRule: rule }`. -/
def injectFacts (mapper : F → Except E F) (rule : Rule F V E) : Rule F V E :=
  .mk (some "injected") none none (some mapper) none (some rule) none none

/-- The builder `transformOutput(fn, rule)`, producing
`{ type: "transformed", transformer: fn, rule }`. -/
def transformOutput (fn : V → Except E V) (rule : Rule F V E) : Rule F V E :=
  .mk (some "transformed") none none none (some fn) none (some rule) none

/-- The builder `applyIf(matcher, rule)`, producing
`{ type: "if", matcher, rule }`. -/
def applyIf (matcher : F → V → Except E Bool) (rule : Rule F V E) : Rule F V E :=
  .mk (some "if") (some matcher) none none none none (some rule) none

/-- The builder `applyAll(rules)`, producing `{ type: "all", rules }`. -/
def applyAll (rules : List (Rule F V E)) : Rule F V E :=
  .mk (some "all") none none none none none none (some rules)

/-- The builder `applyFirst(rules)`, producing `{ type: "first", rules }`. -/
def applyFirst (rules : List (Rule F V E)) : Rule F V E :=
  .mk (some "first") none none none none none none (some rules)

/-- The builder `applyChain(rules)`, producing `{ type: "chain", rules }`. -/
def applyChain (rules : List (Rule F V E)) : Rule F V E :=
  .mk (some "chain") none none none none none none (some rules)

/-- A plain rule object literal `{ matcher, action }` with no `type` field,
as written by callers of the library. -/
def plainRule (matcher : F → V → Except E Bool) (action : F → V → Except E V) :
    Rule F V E :=
  .mk none (some matcher) (some action) none none none none none

/-- The entry point `detailedRun(rule, facts, initialValue)`: seeds the
state with `{ foundMatch: false, value: initialValue }`, runs `runHelp`
inside `try`/`catch`, and returns `[null, result]` on success or
`[err, null]` when evaluation threw. -/
def detailedRun (rule : Rule F V E) (facts : F) (initialValue : V) :
    Option (JsError E) × Option (RuleResult V) :=
  match runHelp rule facts ⟨false, initialValue⟩ with
  | .ok result => (none, some result)
  | .error err => (some err, none)

/-- The entry point `run(rule, facts, initialValue)`: the source computes
`const [err, { value }] = detailedRun(rule, facts, initialValue)` and
returns `[err, value]`.  When `detailedRun` returns `[err, null]`, the
destructuring of `{ value }` from `null` itself raises a `TypeError`, which
escapes `run` uncaught; we model that escaped exception as
`Except.error JsError.typeErr`. -/
def run (rule : Rule F V E) (facts : F) (initialValue : V) :
    Except (JsError E) (Option (JsError E) × V) :=
  match detailedRun rule facts initialValue with
  | (err, some result) => .ok (err, result.value)
  | (_, none) => .error .typeErr

/-- The combinator `not(matcher)`: negates the outcome of the matcher (a
thrown exception propagates). -/
def not (matcher : Matcher F V E) : Matcher F V E := fun facts value =>
  match matcher facts value with
  | .error e => .error e
  | .ok b => .ok (!b)

/-- The combinator `one(matchers)`, i.e.
`matchers.some((check) => check(facts, value))`: true as soon as one matcher
returns true, false once the list is exhausted; it short-circuits, and a
thrown exception propagates. -/
def one : List (Matcher F V E) → Matcher F V E
  | [], _, _ => .ok false
  | check :: rest, facts, value =>
    match check facts value with
    | .error e => .error e
    | .ok true => .ok true
    | .ok false => one rest facts value

/-- The combinator `all(matchers)`, i.e.
`matchers.every((check) => check(facts, value))`: false as soon as one
matcher returns false, true once the list is exhausted; it short-circuits,
and a thrown exception propagates. -/
def all : List (Matcher F V E) → Matcher F V E
  | [], _, _ => .ok true
  | check :: rest, facts, value =>
    match check facts value with
    | .error e => .error e
    | .ok true => all rest facts value
    | .ok false => .ok false

/-- The matcher `always`: constant true. -/
def always : Matcher F V E := fun _ _ => .ok true

/-- The six `case` labels of the `switch` in `runHelp`; any other `type`
value reaches the `default` branch. -/
def switchTags : List String :=
  ["injected", "transformed", "if", "all", "first", "chain"]

/-- Whether a `type` tag is one of the six `switch` case labels. -/
def isSwitchTag : Option String → Bool
  | none => false
  | some s => switchTags.contains s

/-! Concrete fixtures (over `F = Unit`, `V = Nat`, `E = String`) used by the
counterexamples and witnesses below. -/

/-- A matcher that always returns true. -/
def mTrue : Unit → Nat → Except String Bool := fun _ _ => .ok true

/-- A matcher that always returns false. -/
def mFalse : Unit → Nat → Except String Bool := fun _ _ => .ok false

/-- A matcher that throws `"CRASH"`. -/
def mCrash : Unit → Nat → Except String Bool := fun _ _ => .error "CRASH"

/-- An action that increments the current value. -/
def aInc : Unit → Nat → Except String Nat := fun _ v => .ok (v + 1)

/-- An action that throws `"BOOM"`. -/
def aBoom : Unit → Nat → Except String Nat := fun _ _ => .error "BOOM"

/-- A plain rule that always matches and increments the value. -/
def matchR : Rule Unit Nat String := plainRule mTrue aInc

/-- A plain rule that never matches. -/
def missR : Rule Unit Nat String := plainRule mFalse aInc

/-- A plain rule whose action throws `"BOOM"`. -/
def boomR : Rule Unit Nat String := plainRule mTrue aBoom

/-- A plain rule whose matcher throws `"CRASH"`; evaluating it always
fails, so it witnesses that a rule was never evaluated. -/
def crashR : Rule Unit Nat String := plainRule mCrash aInc

/-! Helper lemmas shared by several claims. -/

/-- Folding with `runAllMatchingRules` never clears an already-set
`foundMatch` flag: the reducer ORs the accumulated flag into every step. -/
theorem runAllMatchingRules_mono (l : List (Rule F V E)) (facts : F)
    (state t : RuleResult V) (h : runAllMatchingRules l facts state = .ok t)
    (hs : state.foundMatch = true) : t.foundMatch = true := by
  induction l generalizing state with
  | nil =>
    simp only [runAllMatchingRules] at h
    cases h
    exact hs
  | cons r rest ih =>
    simp only [runAllMatchingRules] at h
    cases hr : runHelp r facts state with
    | error e => simp only [hr] at h; exact Except.noConfusion h
    | ok newState =>
      simp only [hr] at h
      exact ih ⟨state.foundMatch || newState.foundMatch, newState.value⟩ h
        (by simp [hs])

/-- Running `runChainOfRules` never clears an already-set `foundMatch`
flag: it either returns the incoming state or recurses with a matched
state. -/
theorem runChainOfRules_mono (l : List (Rule F V E)) (facts : F)
    (state t : RuleResult V) (h : runChainOfRules l facts state = .ok t)
    (hs : state.foundMatch = true) : t.foundMatch = true := by
  induction l generalizing state with
  | nil =>
    simp only [runChainOfRules] at h
    cases h
    exact hs
  | cons r rest ih =>
    simp only [runChainOfRules] at h
    cases hr : runHelp r facts state with
    | error e => simp only [hr] at h; exact Except.noConfusion h
    | ok res =>
      simp only [hr] at h
      by_cases hf : res.foundMatch = true
      · rw [if_pos hf] at h
        exact ih ⟨res.foundMatch, res.value⟩ h hf
      · rw [if_neg hf] at h
        cases h
        exact hs

mutual

/-- If evaluating a rule succeeds with `foundMatch = false`, the resulting
value is the incoming value, for every variant of the evaluator. -/
theorem runHelp_noMatch_value (r : Rule F V E) (facts : F) (state t : RuleResult V)
    (h : runHelp r facts state = .ok t) (hm : t.foundMatch = false) :
    t.value = state.value := by
  cases r with
  | mk ty ma ac mp tr cr ru rs =>
    by_cases h1 : ty = some "injected"
    · subst h1
      cases mp with
      | none => rw [runHelp.eq_1] at h; exact Except.noConfusion h
      | some mpf =>
        rw [runHelp.eq_2] at h
        cases hmp : mpf facts with
        | error e => simp only [hmp] at h; exact Except.noConfusion h
        | ok facts2 =>
          simp only [hmp] at h
          cases cr with
          | none => exact Except.noConfusion h
          | some child => exact runHelp_noMatch_value child facts2 state t h hm
    · by_cases h2 : ty = some "transformed"
      · subst h2
        cases ru with
        | none => rw [runHelp.eq_3] at h; exact Except.noConfusion h
        | some child =>
          rw [runHelp.eq_4] at h
          cases hch : runHelp child facts state with
          | error e => simp only [hch] at h; exact Except.noConfusion h
          | ok res =>
            simp only [hch] at h
            by_cases hf : res.foundMatch = true
            · rw [if_pos hf] at h
              cases tr with
              | none => exact Except.noConfusion h
              | some trf =>
                cases htr : trf res.value with
                | error e => simp only [htr] at h; exact Except.noConfusion h
                | ok v =>
                  simp only [htr] at h
                  cases h
                  rw [hf] at hm
                  exact Bool.noConfusion hm
            · rw [if_neg hf] at h
              cases h
              exact runHelp_noMatch_value child facts state res hch
                (Bool.not_eq_true _ ▸ hf)
      · by_cases h3 : ty = some "if"
        · subst h3
          cases ma with
          | none => rw [runHelp.eq_5] at h; exact Except.noConfusion h
          | some m =>
            cases ru with
            | none =>
              rw [runHelp.eq_6] at h
              cases hmt : m facts state.value with
              | error e => simp only [hmt] at h; exact Except.noConfusion h
              | ok b =>
                simp only [hmt] at h
                cases b with
                | true => simp at h
                | false => cases h; rfl
            | some child =>
              rw [runHelp.eq_7] at h
              cases hmt : m facts state.value with
              | error e => simp only [hmt] at h; exact Except.noConfusion h
              | ok b =>
                simp only [hmt] at h
                cases b with
                | true => exact runHelp_noMatch_value child facts state t h hm
                | false => cases h; rfl
        · by_cases h4 : ty = some "all"
          · subst h4
            cases rs with
            | none => rw [runHelp.eq_8] at h; exact Except.noConfusion h
            | some l =>
              rw [runHelp.eq_9] at h
              exact runAllMatchingRules_noMatch_value l facts state t h hm
          · by_cases h5 : ty = some "first"
            · subst h5
              cases rs with
              | none => rw [runHelp.eq_10] at h; exact Except.noConfusion h
              | some l =>
                rw [runHelp.eq_11] at h
                exact runFirstMatchingRule_noMatch_value l facts state t h hm
            · by_cases h6 : ty = some "chain"
              · subst h6
                cases rs with
                | none => rw [runHelp.eq_12] at h; exact Except.noConfusion h
                | some l =>
                  rw [runHelp.eq_13] at h
                  exact runChainOfRules_noMatch_value l facts state t h hm
              · cases ma with
                | none =>
                  rw [runHelp.eq_14 facts state ty ac mp tr cr ru rs
                    (fun q => h1 q) (fun q => h2 q) (fun q => h3 q)
                    (fun q => h4 q) (fun q => h5 q) (fun q => h6 q)] at h
                  exact Except.noConfusion h
                | some m =>
                  cases ac with
                  | none =>
                    rw [runHelp.eq_15 facts state ty mp tr cr ru rs m
                      (fun q => h1 q) (fun q => h2 q) (fun q => h3 q)
                      (fun q => h4 q) (fun q => h5 q) (fun q => h6 q)] at h
                    cases hmt : m facts state.value with
                    | error e => simp only [hmt] at h; exact Except.noConfusion h
                    | ok b =>
                      simp only [hmt] at h
                      cases b with
                      | true => simp at h
                      | false => cases h; rfl
                  | some a =>
                    rw [runHelp.eq_16 facts state ty mp tr cr ru rs m a
                      (fun q => h1 q) (fun q => h2 q) (fun q => h3 q)
                      (fun q => h4 q) (fun q => h5 q) (fun q => h6 q)] at h
                    cases hmt : m facts state.value with
                    | error e => simp only [hmt] at h; exact Except.noConfusion h
                    | ok b =>
                      simp only [hmt] at h
                      cases b with
                      | true =>
                        cases hac : a facts state.value with
                        | error e => simp only [hac] at h; exact Except.noConfusion h
                        | ok v =>
                          simp only [hac] at h
                          cases h
                          exact Bool.noConfusion hm
                      | false => cases h; rfl

/-- The list form of `runHelp_noMatch_value` for `runAllMatchingRules`. -/
theorem runAllMatchingRules_noMatch_value (l : List (Rule F V E)) (facts : F)
    (state t : RuleResult V) (h : runAllMatchingRules l facts state = .ok t)
    (hm : t.foundMatch = false) : t.value = state.value := by
  cases l with
  | nil =>
    simp only [runAllMatchingRules] at h
    cases h
    rfl
  | cons r rest =>
    simp only [runAllMatchingRules] at h
    cases hr : runHelp r facts state with
    | error e => simp only [hr] at h; exact Except.noConfusion h
    | ok newState =>
      simp only [hr] at h
      have hacc : (state.foundMatch || newState.foundMatch) = false := by
        by_contra hc
        have : t.foundMatch = true :=
          runAllMatchingRules_mono rest facts
            ⟨state.foundMatch || newState.foundMatch, newState.value⟩ t h
            (by revert hc; cases state.foundMatch || newState.foundMatch <;> simp)
        rw [this] at hm
        exact Bool.noConfusion hm
      have hnew : newState.foundMatch = false := by
        revert hacc; cases newState.foundMatch <;> simp
      have hv1 : t.value = newState.value :=
        runAllMatchingRules_noMatch_value rest facts
          ⟨state.foundMatch || newState.foundMatch, newState.value⟩ t h hm
      have hv2 : newState.value = state.value :=
        runHelp_noMatch_value r facts state newState hr hnew
      rw [hv1, hv2]

/-- The list form of `runHelp_noMatch_value` for `runFirstMatchingRule`. -/
theorem runFirstMatchingRule_noMatch_value (l : List (Rule F V E)) (facts : F)
    (state t : RuleResult V) (h : runFirstMatchingRule l facts state = .ok t)
    (hm : t.foundMatch = false) : t.value = state.value := by
  cases l with
  | nil =>
    simp only [runFirstMatchingRule] at h
    cases h
    rfl
  | cons r rest =>
    simp only [runFirstMatchingRule] at h
    cases hr : runHelp r facts state with
    | error e => simp only [hr] at h; exact Except.noConfusion h
    | ok res =>
      simp only [hr] at h
      by_cases hf : res.foundMatch = true
      · rw [if_pos hf] at h
        cases h
        rw [hf] at hm
        exact Bool.noConfusion hm
      · rw [if_neg hf] at h
        exact runFirstMatchingRule_noMatch_value rest facts state t h hm

/-- The list form of `runHelp_noMatch_value` for `runChainOfRules`. -/
theorem runChainOfRules_noMatch_value (l : List (Rule F V E)) (facts : F)
    (state t : RuleResult V) (h : runChainOfRules l facts state = .ok t)
    (hm : t.foundMatch = false) : t.value = state.value := by
  cases l with
  | nil =>
    simp only [runChainOfRules] at h
    cases h
    rfl
  | cons r rest =>
    simp only [runChainOfRules] at h
    cases hr : runHelp r facts state with
    | error e => simp only [hr] at h; exact Except.noConfusion h
    | ok res =>
      simp only [hr] at h
      by_cases hf : res.foundMatch = true
      · rw [if_pos hf] at h
        have : t.foundMatch = true :=
          runChainOfRules_mono rest facts ⟨res.foundMatch, res.value⟩ t h hf
        rw [this] at hm
        exact Bool.noConfusion hm
      · rw [if_neg hf] at h
        cases h
        rfl

end

/-! Claim theorems. -/

/-- C1 (code bug demonstration): at a rule whose action throws `"BOOM"`,
`detailedRun` catches the failure and returns the pair `[err, null]` as the
claim states, but `run` then destructures `{ value }` from the `null` half
of that pair, and the destructuring raises an uncaught `TypeError`: `run`
propagates a failure to its caller instead of returning `[err, null]`. -/
theorem run_propagates_failure_to_caller :
    detailedRun boomR () 0 = (some (JsError.user "BOOM"), none) ∧
    run boomR () 0 = .error .typeErr :=
  ⟨rfl, rfl⟩

/-- C2 counterexample: for `applyChain [matchR, missR]` from the seed state
`⟨false, 7⟩`, the first child matches (value 8) and the second does not;
the chain node returns `foundMatch = true` (the accumulated incoming
state), whereas the non-matching child itself returns
`foundMatch = false`: the chain does not return the failing child result,
contradicting the claimed `matched = false` flag. -/
theorem chainOf_flag_counterexample :
    runHelp (applyChain [matchR, missR]) () ⟨false, 7⟩ = .ok ⟨true, 8⟩ ∧
    runHelp missR () ⟨true, 8⟩ = .ok ⟨false, 8⟩ :=
  ⟨rfl, rfl⟩

/-- C2 (amended): evaluating a chain-of node runs `runChainOfRules` on its
children; children are visited in order feeding each output state into the
next while `foundMatch` stays true; as soon as a child returns
`foundMatch = false` the chain stops and returns the state that was fed
into that child (whose value equals the value of the non-matching child
result), for every tail of remaining children (so children after the first
non-matching child are never evaluated); if every child matches, the last
child output state is returned. -/
theorem chainOf_spec :
    (∀ (rules : List (Rule F V E)) (facts : F) (state : RuleResult V),
      runHelp (applyChain rules) facts state
        = runChainOfRules rules facts state) ∧
    (∀ (facts : F) (state : RuleResult V),
      runChainOfRules ([] : List (Rule F V E)) facts state = .ok state) ∧
    (∀ (r : Rule F V E) (rest : List (Rule F V E)) (facts : F)
      (state t : RuleResult V), runHelp r facts state = .ok t →
      t.foundMatch = false →
      runChainOfRules (r :: rest) facts state = .ok state ∧
        t.value = state.value) ∧
    (∀ (r : Rule F V E) (rest : List (Rule F V E)) (facts : F)
      (state t : RuleResult V), runHelp r facts state = .ok t →
      t.foundMatch = true →
      runChainOfRules (r :: rest) facts state
        = runChainOfRules rest facts ⟨true, t.value⟩) := by
  refine ⟨?_, fun facts state => rfl, ?_, ?_⟩
  · intro rules facts state
    simp only [applyChain]
    rw [runHelp.eq_13]
  · intro r rest facts state t h hm
    constructor
    · simp only [runChainOfRules, h, hm]
      simp
    · exact runHelp_noMatch_value r facts state t h hm
  · intro r rest facts state t h hm
    simp only [runChainOfRules, h, hm]
    simp

/-- C2 witness: a chain whose first child does not match returns the
incoming state even when the tail contains a rule whose matcher throws,
so the tail is never evaluated. -/
theorem chainOf_spec_witness :
    runChainOfRules [missR, crashR] () ⟨false, 7⟩ = .ok ⟨false, 7⟩ :=
  (chainOf_spec.2.2.1 missR [crashR] () ⟨false, 7⟩ ⟨false, 7⟩ rfl rfl).1

/-- C3: evaluating a first-of node runs `runFirstMatchingRule` on its
children; the empty list returns the incoming state unchanged; a child
whose result has `foundMatch = true` ends the search with exactly that
result for every tail of remaining children (so later children are never
evaluated); a child whose result has `foundMatch = false` passes the
original incoming state, not its own output, to the remaining children. -/
theorem firstOf_spec :
    (∀ (rules : List (Rule F V E)) (facts : F) (state : RuleResult V),
      runHelp (applyFirst rules) facts state
        = runFirstMatchingRule rules facts state) ∧
    (∀ (facts : F) (state : RuleResult V),
      runFirstMatchingRule ([] : List (Rule F V E)) facts state = .ok state) ∧
    (∀ (r : Rule F V E) (rest : List (Rule F V E)) (facts : F)
      (state t : RuleResult V), runHelp r facts state = .ok t →
      t.foundMatch = true →
      runFirstMatchingRule (r :: rest) facts state = .ok t) ∧
    (∀ (r : Rule F V E) (rest : List (Rule F V E)) (facts : F)
      (state t : RuleResult V), runHelp r facts state = .ok t →
      t.foundMatch = false →
      runFirstMatchingRule (r :: rest) facts state
        = runFirstMatchingRule rest facts state) := by
  refine ⟨?_, fun facts state => rfl, ?_, ?_⟩
  · intro rules facts state
    simp only [applyFirst]
    rw [runHelp.eq_11]
  · intro r rest facts state t h hm
    simp only [runFirstMatchingRule, h, hm]
    simp only [if_true]
    rw [← hm]
  · intro r rest facts state t h hm
    simp only [runFirstMatchingRule, h, hm]
    simp

/-- C3 witness: a first-of list whose head matches returns the head result
even when the tail contains a rule whose matcher throws, so the tail is
never evaluated. -/
theorem firstOf_spec_witness :
    runFirstMatchingRule [matchR, crashR] () ⟨false, 3⟩ = .ok ⟨true, 4⟩ :=
  firstOf_spec.2.2.1 matchR [crashR] () ⟨false, 3⟩ ⟨true, 4⟩ rfl rfl

/-- C4 counterexample: an all-of node over the single non-matching child
`missR`, evaluated from an incoming state whose flag is already `true`
(as happens when the node sits after a matching sibling inside an outer
fold), returns `foundMatch = true`, while the logical OR of the matched
flags of its children is `false` (its only child returns
`foundMatch = false`). -/
theorem allOf_flag_counterexample :
    runHelp (applyAll [missR]) () ⟨true, 5⟩ = .ok ⟨true, 5⟩ ∧
    runHelp missR () ⟨true, 5⟩ = .ok ⟨false, 5⟩ :=
  ⟨rfl, rfl⟩

/-- C4 (amended): evaluating an all-of node runs `runAllMatchingRules`, a
left fold over the children in order in which each child receives the
state produced by the previous step, and the resulting flag is the OR of
the incoming state flag with every child flag across the fold: the nil and
cons equations exhibit the fold and the OR accumulation, the append law
shows the fold composes from left to right, and monotonicity shows a set
flag is never cleared (so one match anywhere marks the node matched). -/
theorem allOf_spec :
    (∀ (rules : List (Rule F V E)) (facts : F) (state : RuleResult V),
      runHelp (applyAll rules) facts state
        = runAllMatchingRules rules facts state) ∧
    (∀ (facts : F) (state : RuleResult V),
      runAllMatchingRules ([] : List (Rule F V E)) facts state = .ok state) ∧
    (∀ (r : Rule F V E) (rest : List (Rule F V E)) (facts : F)
      (state t : RuleResult V), runHelp r facts state = .ok t →
      runAllMatchingRules (r :: rest) facts state
        = runAllMatchingRules rest facts
            ⟨state.foundMatch || t.foundMatch, t.value⟩) ∧
    (∀ (l1 l2 : List (Rule F V E)) (facts : F) (state : RuleResult V),
      runAllMatchingRules (l1 ++ l2) facts state
        = match runAllMatchingRules l1 facts state with
          | .error e => .error e
          | .ok u => runAllMatchingRules l2 facts u) ∧
    (∀ (l : List (Rule F V E)) (facts : F) (state t : RuleResult V),
      runAllMatchingRules l facts state = .ok t →
      state.foundMatch = true → t.foundMatch = true) := by
  refine ⟨?_, fun facts state => rfl, ?_, ?_, runAllMatchingRules_mono⟩
  · intro rules facts state
    simp only [applyAll]
    rw [runHelp.eq_9]
  · intro r rest facts state t h
    simp only [runAllMatchingRules, h]
  · intro l1 l2 facts state
    induction l1 generalizing state with
    | nil => simp only [List.nil_append, runAllMatchingRules]
    | cons r l1 ih =>
      simp only [List.cons_append, runAllMatchingRules]
      cases hr : runHelp r facts state with
      | error e => simp only [hr]
      | ok newState =>
        simp only [hr]
        rw [List.append_eq, ih]

/-- C4 witness: the fold equations applied to a single matching child from
an unmatched seed. -/
theorem allOf_spec_witness :
    runAllMatchingRules [matchR] () ⟨false, 3⟩ = .ok ⟨true, 4⟩ := by
  rw [allOf_spec.2.2.1 matchR [] () ⟨false, 3⟩ ⟨true, 4⟩ rfl]
  exact allOf_spec.2.1 () ⟨true, 4⟩

/-- C5: evaluating `transformOutput(fn, rule)` first evaluates the child
with the current state; when the child result has `foundMatch = true` the
final value is the transformer applied to the child value, and when it has
`foundMatch = false` the child value passes through unchanged for every
transformer (so the transformer is never invoked on an unmatched
branch). -/
theorem transformOutput_spec :
    (∀ (fn : V → Except E V) (r : Rule F V E) (facts : F)
      (state t : RuleResult V) (w : V), runHelp r facts state = .ok t →
      t.foundMatch = true → fn t.value = .ok w →
      runHelp (transformOutput fn r) facts state = .ok ⟨true, w⟩) ∧
    (∀ (fn : V → Except E V) (r : Rule F V E) (facts : F)
      (state t : RuleResult V), runHelp r facts state = .ok t →
      t.foundMatch = false →
      runHelp (transformOutput fn r) facts state = .ok ⟨false, t.value⟩) := by
  constructor
  · intro fn r facts state t w h hm hfn
    simp only [transformOutput]
    rw [runHelp.eq_4]
    simp only [h, hm, hfn]
    simp
  · intro fn r facts state t h hm
    simp only [transformOutput]
    rw [runHelp.eq_4]
    simp only [h, hm]
    simp

/-- C5 witness: wrapping a non-matching rule with a transformer that
always throws still succeeds with the untouched value, so the transformer
was never invoked. -/
theorem transformOutput_spec_witness :
    runHelp (transformOutput (fun _ => .error "CRASH") missR) () ⟨false, 3⟩
      = .ok ⟨false, 3⟩ :=
  transformOutput_spec.2 (fun _ => .error "CRASH") missR () ⟨false, 3⟩
    ⟨false, 3⟩ rfl rfl

/-- C6: evaluating `applyIf(matcher, rule)` applies the gate matcher to
the facts and the current value first; when it returns false the result is
`{ foundMatch: false, value: state.value }` for every child rule (so the
child is never evaluated); when it returns true the child is evaluated
with the original incoming state and its result returned. -/
theorem applyIf_spec :
    (∀ (m : F → V → Except E Bool) (r : Rule F V E) (facts : F)
      (state : RuleResult V), m facts state.value = .ok false →
      runHelp (applyIf m r) facts state = .ok ⟨false, state.value⟩) ∧
    (∀ (m : F → V → Except E Bool) (r : Rule F V E) (facts : F)
      (state : RuleResult V), m facts state.value = .ok true →
      runHelp (applyIf m r) facts state = runHelp r facts state) := by
  constructor
  · intro m r facts state hm
    simp only [applyIf]
    rw [runHelp.eq_7]
    simp only [hm]
  · intro m r facts state hm
    simp only [applyIf]
    rw [runHelp.eq_7]
    simp only [hm]

/-- C6 witness: a false gate short-circuits even around a rule whose
matcher throws, so the child was never evaluated. -/
theorem applyIf_spec_witness :
    runHelp (applyIf mFalse crashR) () ⟨false, 3⟩ = .ok ⟨false, 3⟩ :=
  applyIf_spec.1 mFalse crashR () ⟨false, 3⟩ rfl

/-- C7: whenever evaluation of any rule node terminates without a failure
and its result has `foundMatch = false`, the resulting value equals the
incoming value: an evaluation that matches nothing leaves the accumulator
unchanged. -/
theorem noMatch_preserves_value (r : Rule F V E) (facts : F)
    (state t : RuleResult V) (h : runHelp r facts state = .ok t)
    (hm : t.foundMatch = false) : t.value = state.value :=
  runHelp_noMatch_value r facts state t h hm

/-- C7 witness: an all-of node of two non-matching rules evaluates to
`foundMatch = false` with the seed value 9 preserved. -/
theorem noMatch_preserves_value_witness :
    runHelp (applyAll [missR, missR]) () ⟨false, 9⟩ = .ok ⟨false, 9⟩ ∧
    (RuleResult.mk false 9 : RuleResult Nat).value
      = (⟨false, 9⟩ : RuleResult Nat).value :=
  ⟨rfl, noMatch_preserves_value (applyAll [missR, missR]) () ⟨false, 9⟩
    ⟨false, 9⟩ rfl rfl⟩

/-- C8: applying the negation combinator twice is the identity on
observable behaviour, `not(not(m))(f, v) = m(f, v)` for every matcher and
arguments, including throwing matchers. -/
theorem not_not_matcher (m : Matcher F V E) (facts : F) (value : V) :
    ComposableRules.not (ComposableRules.not m) facts value
      = m facts value := by
  cases hm : m facts value with
  | error e => simp [ComposableRules.not, hm]
  | ok b => simp [ComposableRules.not, hm]

/-- C9: on the empty list of matchers, the conjunction combinator `all`
returns true and the disjunction combinator `one` returns false, for every
pair of arguments. -/
theorem all_nil_one_nil (facts : F) (value : V) :
    all ([] : List (Matcher F V E)) facts value = .ok true ∧
    one ([] : List (Matcher F V E)) facts value = .ok false :=
  ⟨rfl, rfl⟩

/-- C10: a node whose `type` tag is none of the six `switch` labels
(including an absent tag) is treated exactly as a plain leaf rule: its
evaluation coincides with that of the untagged `{ matcher, action }`
object, returning `{ foundMatch: true, value: action(facts, state.value) }`
when the matcher returns true and `{ foundMatch: false, value:
state.value }` otherwise; no unknown-tag error is ever reported. -/
theorem unknown_tag_runs_as_plain (ty : Option String)
    (m : F → V → Except E Bool) (a : F → V → Except E V)
    (mp : Option (F → Except E F)) (tr : Option (V → Except E V))
    (cr ru : Option (Rule F V E)) (rs : Option (List (Rule F V E)))
    (facts : F) (state : RuleResult V)
    (hty : isSwitchTag ty = false) :
    runHelp (Rule.mk ty (some m) (some a) mp tr cr ru rs) facts state
      = runHelp (plainRule m a) facts state ∧
    (∀ w : V, m facts state.value = .ok true → a facts state.value = .ok w →
      runHelp (Rule.mk ty (some m) (some a) mp tr cr ru rs) facts state
        = .ok ⟨true, w⟩) ∧
    (m facts state.value = .ok false →
      runHelp (Rule.mk ty (some m) (some a) mp tr cr ru rs) facts state
        = .ok ⟨false, state.value⟩) := by
  have h1 : ty = some "injected" → False := fun q => by
    subst q; revert hty; decide
  have h2 : ty = some "transformed" → False := fun q => by
    subst q; revert hty; decide
  have h3 : ty = some "if" → False := fun q => by
    subst q; revert hty; decide
  have h4 : ty = some "all" → False := fun q => by
    subst q; revert hty; decide
  have h5 : ty = some "first" → False := fun q => by
    subst q; revert hty; decide
  have h6 : ty = some "chain" → False := fun q => by
    subst q; revert hty; decide
  have hplain :
      runHelp (Rule.mk ty (some m) (some a) mp tr cr ru rs) facts state
        = match m facts state.value with
          | .error e => .error (.user e)
          | .ok true =>
            match a facts state.value with
            | .error e => .error (.user e)
            | .ok v => .ok ⟨true, v⟩
          | .ok false => .ok ⟨false, state.value⟩ :=
    runHelp.eq_16 facts state ty mp tr cr ru rs m a h1 h2 h3 h4 h5 h6
  refine ⟨?_, ?_, ?_⟩
  · rw [hplain]
    simp only [plainRule]
    rw [runHelp.eq_16 facts state none none none none none none m a
      (fun q => Option.noConfusion q) (fun q => Option.noConfusion q)
      (fun q => Option.noConfusion q) (fun q => Option.noConfusion q)
      (fun q => Option.noConfusion q) (fun q => Option.noConfusion q)]
  · intro w hmt hac
    rw [hplain]
    simp only [hmt, hac]
  · intro hmt
    rw [hplain]
    simp only [hmt]

/-- C10 witness: a node tagged `"banana"` evaluates exactly like the plain
untagged leaf with the same matcher and action. -/
theorem unknown_tag_runs_as_plain_witness :
    isSwitchTag (some "banana") = false ∧
    runHelp (Rule.mk (some "banana") (some mTrue) (some aInc)
        none none none none none) () ⟨false, 3⟩
      = runHelp (plainRule mTrue aInc) () ⟨false, 3⟩ :=
  ⟨by decide,
    (unknown_tag_runs_as_plain (some "banana") mTrue aInc
      none none none none none () ⟨false, 3⟩ (by decide)).1⟩

end ComposableRules
